import Mathlib

/-!
Verification of the PredictMovieName backend (src/backend/app.py).

The backend is a single-endpoint FastAPI service: `build_llm_prompt` turns a
plot description into an instruction string, and `identify_movie` sends it to
the OpenAI chat-completion API, parses the returned text as JSON and validates
it against the pydantic model `IdentifyResponse`, mapping each failure to an
HTTP 500 with a distinguishing `detail` message.

The embedding is parameterised over the two external effects the handler
performs: the upstream chat-completion call (`callLLM`, indexed by the attempt
number so that "called exactly once, never retried" is expressible) and the
standard-library JSON parser (`loads`, a model of Python's `json.loads`).
Everything the repository itself contributes — the prompt text, the pipeline
order, the error mapping, the response schema — is transcribed directly.
-/

set_option maxRecDepth 10000

namespace PMN

/-- A JSON value as produced by Python's `json.loads`: objects become `dict`s
(association lists with string keys; `json.loads` never yields duplicate keys),
arrays become lists, and numeric literals are modelled as rationals (every JSON
numeric literal is a decimal and hence exact as a rational). -/
inductive Json where
  | null : Json
  | bool (b : Bool) : Json
  | num (q : ℚ) : Json
  | str (s : String) : Json
  | arr (elems : List Json) : Json
  | obj (fields : List (String × Json)) : Json

/-- The chat message object inside one completion choice
(`completion.choices[i].message`). -/
structure Message where
  content : String
deriving DecidableEq

/-- One completion choice (`completion.choices[i]`). -/
structure Choice where
  message : Message
deriving DecidableEq

/-- The shape of the upstream completion used by the handler:
`openai.chat.completions.create(...)` returns an object with a list of
choices; the handler reads `completion.choices[0].message.content`. -/
structure Completion where
  choices : List Choice
deriving DecidableEq

/-- Schema for the incoming request: `User_query` holds the plot description. -/
structure IdentifyRequest where
  User_query : String
deriving DecidableEq

/-- A Python float as held by the validated response model: a finite value
(every JSON numeric literal is a decimal and hence exact as a rational) or
one of the IEEE special values, which the handler can only obtain through
pydantic's string-to-float coercion (`float("inf")`, `float("nan")`, ...). -/
inductive PyFloat where
  | finite (q : ℚ) : PyFloat
  | posInf : PyFloat
  | negInf : PyFloat
  | nan : PyFloat
deriving DecidableEq

/-- Schema for the API response (pydantic model): four required fields.
`confidence: float` holds a `PyFloat`; a JSON number is stored as the
corresponding finite value. -/
structure IdentifyResponse where
  movie_name : String
  release_date : String
  rationale : String
  confidence : PyFloat
deriving DecidableEq

/-- Which of the three `raise HTTPException` sites in `identify_movie`
produced the error. The spec names them UpstreamError, MalformedResponseError
and SchemaValidationError; at the wire level they differ only in `detail`. -/
inductive ErrKind where
  | upstream : ErrKind
  | malformed : ErrKind
  | schema : ErrKind
deriving DecidableEq

/-- An `HTTPException(status_code=..., detail=...)` as raised by the handler,
tagged with the raise site. -/
structure ApiError where
  statusCode : Nat
  kind : ErrKind
  detail : String
deriving DecidableEq

/-- The fixed text of the prompt before the interpolated plot: the
concatenation of the instruction template literals and the `"Plot: "` label
of the f-string in `build_llm_prompt`. -/
def promptHead : String :=
  "You are a world‑class movie identification assistant. Given a plot description, you " ++
  "search the internet for clues (even though you rely on your own knowledge) and deduce " ++
  "the most likely movie. You must provide four fields: movie_name, release_date, " ++
  "rationale, and confidence. The rationale should explain why the selected movie fits " ++
  "the description, referencing key plot points, actors, or unique elements. Confidence " ++
  "should be a float between 0 and 1 representing your certainty.\n\nPlot: "

/-- The fixed text of the prompt after the interpolated plot. -/
def promptTail : String :=
  "\n\nRespond with a JSON object using these exact keys: movie_name, release_date, rationale, " ++
  "confidence."

/-- `build_llm_prompt(plot)`: the instruction template with the plot
interpolated verbatim between `promptHead` and `promptTail`. -/
def build_llm_prompt (plot : String) : String :=
  promptHead ++ plot ++ promptTail

/-- The module-level state of the server process visible to the handler:
the OpenAI API key read at startup. `build_llm_prompt` reads none of it. -/
structure ServerEnv where
  openaiApiKey : String
deriving DecidableEq

/-- `build_llm_prompt` as it runs inside the server process, in state-passing
form: the function body references no module globals and performs no writes,
so it returns its result together with the process state unchanged. -/
def buildLlmPromptInEnv (env : ServerEnv) (plot : String) : String × ServerEnv :=
  (build_llm_prompt plot, env)

/-- Python's `str.strip()` with no argument, as called on the completion text:
removes leading and trailing whitespace characters. -/
def pyStrip (s : String) : String :=
  ⟨((s.data.dropWhile Char.isWhitespace).reverse.dropWhile Char.isWhitespace).reverse⟩

/-- Value of digit characters read in base 10 (used to model the numeric
string coercion performed by pydantic for `float` fields). -/
def digitsVal (ds : List Char) : Nat :=
  ds.foldl (fun n c => 10 * n + (c.toNat - 48)) 0

/-- Parse an unsigned decimal mantissa `digits [. digits]` from the front of
the character list, returning its value and the unconsumed rest. -/
def parseMantissa (cs : List Char) : Option (ℚ × List Char) :=
  let intDs := cs.takeWhile Char.isDigit
  let rest1 := cs.dropWhile Char.isDigit
  match rest1 with
  | '.' :: rest2 =>
      let fracDs := rest2.takeWhile Char.isDigit
      let rest3 := rest2.dropWhile Char.isDigit
      if intDs.isEmpty && fracDs.isEmpty then none
      else some ((digitsVal intDs : ℚ) + (digitsVal fracDs : ℚ) / ((10 : ℚ) ^ fracDs.length), rest3)
  | _ =>
      if intDs.isEmpty then none else some ((digitsVal intDs : ℚ), rest1)

/-- Parse an optional exponent `(e|E) [sign] digits`, returning the scale
factor and the unconsumed rest (scale 1 when no exponent follows). -/
def parseExponent (cs : List Char) : Option (ℚ × List Char) :=
  match cs with
  | [] => some (1, [])
  | c :: rest =>
      if c = 'e' ∨ c = 'E' then
        let signed : Bool × List Char :=
          match rest with
          | '-' :: r => (true, r)
          | '+' :: r => (false, r)
          | _ => (false, rest)
        let ds := signed.2.takeWhile Char.isDigit
        let rest3 := signed.2.dropWhile Char.isDigit
        if ds.isEmpty then none
        else if signed.1 then some ((((10 : ℚ) ^ digitsVal ds))⁻¹, rest3)
        else some (((10 : ℚ) ^ digitsVal ds), rest3)
      else some (1, c :: rest)

/-- PEP 515 underscore placement: every underscore in a numeric literal must
sit between two digits (`1_000.5` is fine, `_1`, `1__0`, `1_.5`, `5_` are
not). CPython's `float()` enforces this before parsing. -/
def underscoresBetweenDigits : List Char → Bool
  | [] => true
  | '_' :: _ => false
  | c :: '_' :: rest =>
      c.isDigit &&
      (match rest with
       | d :: _ => d.isDigit
       | [] => false) &&
      underscoresBetweenDigits rest
  | _ :: rest => underscoresBetweenDigits rest

/-- The core of Python float-string parsing, on a stripped, underscore-free
character list: `[sign]` followed by `inf`/`infinity`/`nan` (case-insensitive)
or a decimal literal `digits [. digits] [(e|E) [sign] digits]`. -/
def pyFloatCore (cs : List Char) : Option PyFloat :=
  let signed : Bool × List Char :=
    match cs with
    | '-' :: r => (true, r)
    | '+' :: r => (false, r)
    | _ => (false, cs)
  let low := signed.2.map Char.toLower
  if low = ['i', 'n', 'f'] ∨ low = ['i', 'n', 'f', 'i', 'n', 'i', 't', 'y'] then
    some (if signed.1 then .negInf else .posInf)
  else if low = ['n', 'a', 'n'] then some .nan
  else
    match parseMantissa signed.2 with
    | none => none
    | some (m, rest) =>
        match parseExponent rest with
        | none => none
        | some (e, rest2) =>
            if rest2.isEmpty then some (.finite ((if signed.1 then -m else m) * e)) else none

/-- Model of the string-to-float coercion pydantic applies in its default
(non-strict) mode to a `str` input for a `float` field: surrounding
whitespace is stripped, PEP 515 underscores are allowed between digits, and
the result is a signed decimal literal or one of the special forms
`inf`/`infinity`/`nan` (case-insensitive; pydantic v2 ships
`allow_inf_nan=True` by default, and pydantic v1 delegates to CPython
`float()`, which accepts the same forms). The acceptance set is the union
over the two major pydantic versions (v2's Rust parser does not take
underscores; v1's `float()` does), so a `none` here means both versions
reject the string — see `asciiFloatInput` for the characters on which this
equivalence is exact. -/
def parsePyFloat (s : String) : Option PyFloat :=
  let t := (pyStrip s).data
  if underscoresBetweenDigits t then pyFloatCore (t.filter (fun c => c ≠ '_')) else none

/-- Guard for the modeled rejection boundary of the float coercion: CPython's
`float()` additionally maps Unicode decimal digits and Unicode spaces to
ASCII before parsing and treats `\x0b`/`\x0c` as whitespace (and v2's parser
trims Unicode whitespace). Strings containing such characters are left
outside the rejection predicate `floatFieldRejected` rather than mismodeled;
on strings passing this guard, `parsePyFloat s = none` implies both pydantic
major versions reject `s` for a `float` field. -/
def asciiFloatInput (s : String) : Bool :=
  s.data.all (fun c => c.toNat ≤ 127 && c ≠ '\x0b' && c ≠ '\x0c')

/-- Key lookup in a parsed JSON object; `json.loads` produces a `dict`, so
keys are unique and first-match lookup is exact. -/
def lookupField (fields : List (String × Json)) (k : String) : Option Json :=
  fields.lookup k

/-- Pydantic validation of one required `str` field (default, non-strict
mode): accepts exactly a JSON string; a missing key or any other JSON type is
an error naming the field. -/
def validateStrField (name : String) (v : Option Json) : Except String String :=
  match v with
  | some (.str s) => .ok s
  | some _ => .error (name ++ ": Input should be a valid string")
  | none => .error (name ++ ": Field required")

/-- Pydantic validation of one required `float` field (default, non-strict
mode): accepts a JSON number as the corresponding finite float, coerces a
string per `parsePyFloat` (decimal literals, optionally whitespace-padded and
underscored, and the signed `inf`/`infinity`/`nan` forms), and rejects
booleans, null, containers and unparseable strings; a missing key is an error
naming the field. -/
def validateFloatField (name : String) (v : Option Json) : Except String PyFloat :=
  match v with
  | some (.num q) => .ok (.finite q)
  | some (.str s) =>
      match parsePyFloat s with
      | some f => .ok f
      | none => .error (name ++ ": Input should be a valid number, unable to parse string as a number")
  | some _ => .error (name ++ ": Input should be a valid number")
  | none => .error (name ++ ": Field required")

/-- The error messages (if any) of one field validation outcome. -/
def errOf {α : Type} : Except String α → List String
  | .error e => [e]
  | .ok _ => []

/-- Join the collected per-field validation messages into the single string
interpolated into the HTTP `detail` (pydantic reports all field errors of a
failed validation together). -/
def joinMsgs : List String → String
  | [] => ""
  | [m] => m
  | m :: ms => m ++ "; " ++ joinMsgs ms

/-- `IdentifyResponse(**result)` for a parsed JSON object: validate the four
required fields in declaration order, collecting all errors; extra keys are
ignored (pydantic's default `extra` policy). Succeeds with exactly the four
validated values or fails with the joined validation messages. -/
def validateResponse (fields : List (String × Json)) : Except String IdentifyResponse :=
  let m := validateStrField "movie_name" (lookupField fields "movie_name")
  let d := validateStrField "release_date" (lookupField fields "release_date")
  let r := validateStrField "rationale" (lookupField fields "rationale")
  let c := validateFloatField "confidence" (lookupField fields "confidence")
  match m, d, r, c with
  | .ok mv, .ok dv, .ok rv, .ok cv => .ok ⟨mv, dv, rv, cv⟩
  | _, _, _, _ => .error (joinMsgs (errOf m ++ errOf d ++ errOf r ++ errOf c))

/-- Python's name for the type of a non-object JSON value, as it appears in
the `TypeError` raised by `IdentifyResponse(**result)` when `result` is not a
mapping (caught by the same `except Exception` as validation errors). -/
def jsonTypeName : Json → String
  | .null => "NoneType"
  | .bool _ => "bool"
  | .num _ => "float"
  | .str _ => "str"
  | .arr _ => "list"
  | .obj _ => "dict"

/-- The `detail` prefix of the upstream-error branch. -/
def upstreamDetailPre : String := "OpenAI API error: "

/-- The `detail` prefix of the JSON-parse-failure branch. -/
def malformedDetailPre : String := "Failed to parse response as JSON. Raw response was: "

/-- The `detail` prefix of the validation-failure branch. -/
def schemaDetailPre : String := "Response JSON missing required fields or invalid types: "

/-- The handler `identify_movie`, transcribed stage by stage.

`callLLM prompt i` is the outcome of the `i`-th upstream call with the given
prompt; the body performs exactly one call (attempt 0). `loads` models
`json.loads` on the stripped completion text. The result is `none` exactly
when the handler would crash outside its `try` blocks (empty `choices`, an
`IndexError` no `except` catches); otherwise it is the returned response or
the raised `HTTPException`. -/
def identify_movie (req : IdentifyRequest)
    (callLLM : String → Nat → Except String Completion)
    (loads : String → Option Json) : Option (Except ApiError IdentifyResponse) :=
  let prompt := build_llm_prompt req.User_query
  match callLLM prompt 0 with
  | .error e => some (.error ⟨500, .upstream, upstreamDetailPre ++ e⟩)
  | .ok completion =>
      match completion.choices with
      | [] => none
      | choice :: _ =>
          let content := pyStrip choice.message.content
          match loads content with
          | none => some (.error ⟨500, .malformed, malformedDetailPre ++ content⟩)
          | some (.obj fields) =>
              match validateResponse fields with
              | .ok resp => some (.ok resp)
              | .error msg => some (.error ⟨500, .schema, schemaDetailPre ++ msg⟩)
          | some j =>
              some (.error ⟨500, .schema,
                schemaDetailPre ++ ("argument after ** must be a mapping, not " ++ jsonTypeName j)⟩)

/-- Whether `sub` occurs at the front of `hay` (on character lists). -/
def startsWithL : List Char → List Char → Bool
  | _, [] => true
  | [], _ :: _ => false
  | a :: as, b :: bs => a == b && startsWithL as bs

/-- Whether `sub` occurs contiguously anywhere inside `hay`. -/
def hasSubL (sub : List Char) : List Char → Bool
  | [] => sub.isEmpty
  | c :: t => startsWithL (c :: t) sub || hasSubL sub t

/-- `sub` occurs verbatim as a contiguous substring of `hay`. -/
def hasSubstr (hay sub : String) : Prop :=
  ∃ a b : String, hay = a ++ sub ++ b

theorem startsWithL_sound :
    ∀ (sub hay : List Char), startsWithL hay sub = true → ∃ r, hay = sub ++ r
  | [], hay, _ => ⟨hay, rfl⟩
  | _ :: _, [], h => absurd h (by simp [startsWithL])
  | b :: bs, a :: as, h => by
      simp only [startsWithL, Bool.and_eq_true] at h
      obtain ⟨r, hr⟩ := startsWithL_sound bs as h.2
      exact ⟨r, by simp [eq_of_beq h.1, hr]⟩

theorem startsWithL_self_append (sub r : List Char) : startsWithL (sub ++ r) sub = true := by
  induction sub with
  | nil => cases r <;> simp [startsWithL]
  | cons c cs ih => simp [startsWithL, ih]

theorem hasSubL_of_startsWithL {sub hay : List Char} (h : startsWithL hay sub = true) :
    hasSubL sub hay = true := by
  cases hay with
  | nil =>
      cases sub with
      | nil => simp [hasSubL]
      | cons b bs => simp [startsWithL] at h
  | cons c t => simp [hasSubL, h]

theorem hasSubL_sound :
    ∀ (sub hay : List Char), hasSubL sub hay = true → ∃ a b, hay = a ++ (sub ++ b) := by
  intro sub hay
  induction hay with
  | nil =>
      intro h
      simp only [hasSubL, List.isEmpty_iff] at h
      exact ⟨[], [], by simp [h]⟩
  | cons c t ih =>
      intro h
      simp only [hasSubL, Bool.or_eq_true] at h
      cases h with
      | inl h =>
          obtain ⟨r, hr⟩ := startsWithL_sound sub (c :: t) h
          exact ⟨[], r, by simp [hr]⟩
      | inr h =>
          obtain ⟨a, b, hab⟩ := ih h
          exact ⟨c :: a, b, by simp [hab]⟩

theorem hasSubL_complete (sub a b : List Char) : hasSubL sub (a ++ (sub ++ b)) = true := by
  induction a with
  | nil => exact hasSubL_of_startsWithL (startsWithL_self_append sub b)
  | cons c cs ih => simp [hasSubL, ih]

theorem string_data_inj {a b : String} (h : a.data = b.data) : a = b := by
  cases a; cases b; exact congrArg String.mk h

theorem hasSubstr_iff_hasSubL (hay sub : String) :
    hasSubstr hay sub ↔ hasSubL sub.data hay.data = true := by
  constructor
  · rintro ⟨a, b, rfl⟩
    have hd : (a ++ sub ++ b).data = a.data ++ (sub.data ++ b.data) := by
      simp [String.data_append]
    rw [hd]
    exact hasSubL_complete _ _ _
  · intro h
    obtain ⟨a, b, hab⟩ := hasSubL_sound _ _ h
    refine ⟨⟨a⟩, ⟨b⟩, string_data_inj ?_⟩
    simp [String.data_append, hab]

theorem hasSubstr_of_left_part {h sub : String} (p t : String)
    (hh : hasSubL sub.data h.data = true) : hasSubstr (h ++ p ++ t) sub := by
  rw [hasSubstr_iff_hasSubL]
  obtain ⟨a, b, hab⟩ := hasSubL_sound _ _ hh
  have hd : (h ++ p ++ t).data = a ++ (sub.data ++ (b ++ p.data ++ t.data)) := by
    simp [String.data_append, hab]
  rw [hd]
  exact hasSubL_complete _ _ _

theorem append_ne_empty_of_left {a : String} (b : String) (h : a ≠ "") : a ++ b ≠ "" := by
  intro heq
  apply h
  have hd := congrArg String.data heq
  simp only [String.data_append] at hd
  rcases List.append_eq_nil.mp hd with ⟨ha, _⟩
  exact string_data_inj (by simp [ha])

theorem str_append_empty (s : String) : s ++ "" = s := by
  apply string_data_inj
  rw [String.data_append]
  show s.data ++ [] = s.data
  simp

theorem str_append_assoc (a b c : String) : a ++ b ++ c = a ++ (b ++ c) := by
  apply string_data_inj
  simp [String.data_append]

theorem hasSubstr_of_append (pre sub : String) : hasSubstr (pre ++ sub) sub :=
  ⟨pre, "", by rw [str_append_assoc, str_append_empty]⟩

/-- C2: for every plot string `p`, including the empty string, building the
prompt succeeds (total function) and the result contains `p` verbatim as a
substring and names all four required JSON keys `movie_name`, `release_date`,
`rationale`, `confidence` in its instructions. -/
theorem build_prompt_contains_plot_and_keys (p : String) :
    hasSubstr (build_llm_prompt p) p ∧
    hasSubstr (build_llm_prompt p) "movie_name" ∧
    hasSubstr (build_llm_prompt p) "release_date" ∧
    hasSubstr (build_llm_prompt p) "rationale" ∧
    hasSubstr (build_llm_prompt p) "confidence" := by
  refine ⟨⟨promptHead, promptTail, rfl⟩, ?_, ?_, ?_, ?_⟩ <;>
    exact hasSubstr_of_left_part p promptTail (by decide)

/-- C8: `build_llm_prompt` is pure and deterministic: run in any two process
states, the two evaluations yield the identical output string, and neither
evaluation changes the process state. -/
theorem build_prompt_pure_deterministic (e₁ e₂ : ServerEnv) (p : String) :
    (buildLlmPromptInEnv e₁ p).1 = (buildLlmPromptInEnv e₂ p).1 ∧
    (buildLlmPromptInEnv e₁ p).2 = e₁ :=
  ⟨rfl, rfl⟩

/-- C5: if the upstream call raises, `identify_movie` fails with the
upstream-error branch: HTTP 500, `detail` containing the underlying error
message. The call is not retried — the outcome is fixed by attempt 0 alone,
whatever later attempts would return — and the parse and validation stages
are never reached: the outcome does not depend on the JSON parser. -/
theorem identify_upstream_error (req : IdentifyRequest) (msg : String)
    (loads loads' : String → Option Json)
    (callLLM : String → Nat → Except String Completion)
    (hcall : ∀ prompt, callLLM prompt 0 = .error msg) :
    identify_movie req callLLM loads =
      some (.error ⟨500, .upstream, upstreamDetailPre ++ msg⟩) ∧
    (∃ a b, upstreamDetailPre ++ msg = a ++ msg ++ b) ∧
    identify_movie req callLLM loads' = identify_movie req callLLM loads := by
  refine ⟨?_, ⟨upstreamDetailPre, "", by rw [str_append_assoc, str_append_empty]⟩, ?_⟩
  · simp [identify_movie, hcall]
  · simp [identify_movie, hcall]

/-- Witness for C5 at a concrete input: the upstream errors with "boom" on the
first attempt (a retry would have succeeded, but none is made). -/
theorem identify_upstream_error_witness :
    identify_movie ⟨"plot"⟩
        (fun _ n => if n = 0 then .error "boom" else .ok ⟨[⟨⟨"ok"⟩⟩]⟩)
        (fun _ => none) =
      some (.error ⟨500, .upstream, upstreamDetailPre ++ "boom"⟩) :=
  (identify_upstream_error ⟨"plot"⟩ "boom" (fun _ => none) (fun _ => some (.obj []))
    (fun _ n => if n = 0 then .error "boom" else .ok ⟨[⟨⟨"ok"⟩⟩]⟩)
    (fun _ => rfl)).1

/-- The tail of the pipeline once a parsed JSON object is in hand: pydantic
validation and the mapping of its failure to the HTTP 500 detail. -/
def validationStage (fields : List (String × Json)) : Except ApiError IdentifyResponse :=
  match validateResponse fields with
  | .ok resp => .ok resp
  | .error msg => .error ⟨500, .schema, schemaDetailPre ++ msg⟩

/-- C4 (amended): when the stripped completion text is not valid JSON, the
handler fails with the JSON-parse branch, HTTP 500, and the surfaced message
contains the stripped completion text (the text after whitespace removal —
not, in general, the raw completion text). -/
theorem identify_malformed_contains_stripped_text (req : IdentifyRequest)
    (callLLM : String → Nat → Except String Completion)
    (loads : String → Option Json)
    (comp : Completion) (choice : Choice) (rest : List Choice)
    (hcall : callLLM (build_llm_prompt req.User_query) 0 = .ok comp)
    (hch : comp.choices = choice :: rest)
    (hparse : loads (pyStrip choice.message.content) = none) :
    ∃ e : ApiError, identify_movie req callLLM loads = some (.error e) ∧
      e.kind = .malformed ∧ e.statusCode = 500 ∧
      hasSubstr e.detail (pyStrip choice.message.content) := by
  refine ⟨⟨500, .malformed, malformedDetailPre ++ pyStrip choice.message.content⟩,
    ?_, rfl, rfl, hasSubstr_of_append _ _⟩
  simp [identify_movie, hcall, hch, hparse]

/-- Witness for the amended C4: a whitespace-padded non-JSON completion. -/
theorem identify_malformed_contains_stripped_text_witness :
    ∃ e : ApiError,
      identify_movie ⟨"p"⟩ (fun _ _ => .ok ⟨[⟨⟨" not json "⟩⟩]⟩) (fun _ => none) =
        some (.error e) ∧
      e.kind = .malformed ∧ e.statusCode = 500 ∧
      hasSubstr e.detail (pyStrip " not json ") :=
  identify_malformed_contains_stripped_text ⟨"p"⟩ (fun _ _ => .ok ⟨[⟨⟨" not json "⟩⟩]⟩)
    (fun _ => none) ⟨[⟨⟨" not json "⟩⟩]⟩ ⟨⟨" not json "⟩⟩ [] rfl rfl rfl

/-- C4 as stated is false: for the completion text `" not json "` the surfaced
message contains the stripped text `"not json"` but not the raw completion
text `" not json "`. -/
theorem identify_malformed_raw_text_counterexample :
    ∃ e : ApiError,
      identify_movie ⟨"p"⟩ (fun _ _ => .ok ⟨[⟨⟨" not json "⟩⟩]⟩) (fun _ => none) =
        some (.error e) ∧
      e.kind = .malformed ∧ ¬ hasSubstr e.detail " not json " := by
  refine ⟨⟨500, .malformed, malformedDetailPre ++ "not json"⟩, ?_, rfl, ?_⟩
  · rfl
  · rw [hasSubstr_iff_hasSubL]
    decide

/-- C7: the handler strips surrounding whitespace from the completion text
before JSON parsing, so a completion whose text is a JSON object surrounded
by whitespace parses successfully and the request proceeds to the validation
stage — it does not fail with the JSON-parse (malformed-response) branch. -/
theorem identify_strips_before_parsing (req : IdentifyRequest)
    (callLLM : String → Nat → Except String Completion)
    (loads : String → Option Json)
    (comp : Completion) (choice : Choice) (rest : List Choice)
    (w₁ w₂ t : String) (fields : List (String × Json))
    (hcall : callLLM (build_llm_prompt req.User_query) 0 = .ok comp)
    (hch : comp.choices = choice :: rest)
    (hcontent : choice.message.content = w₁ ++ t ++ w₂)
    (hstrip : pyStrip (w₁ ++ t ++ w₂) = t)
    (hparse : loads t = some (.obj fields)) :
    identify_movie req callLLM loads = some (validationStage fields) ∧
    ∀ e : ApiError, identify_movie req callLLM loads = some (.error e) →
      e.kind ≠ .malformed := by
  have hmain : identify_movie req callLLM loads = some (validationStage fields) := by
    simp only [identify_movie, hcall, hch, hcontent, hstrip, hparse, validationStage]
    cases validateResponse fields <;> rfl
  refine ⟨hmain, ?_⟩
  intro e he hk
  rw [hmain] at he
  unfold validationStage at he
  rcases hv : validateResponse fields with msg | resp <;> rw [hv] at he <;> simp at he
  rw [← he] at hk
  simp at hk

/-- Witness for C7: the completion text is `"  {}  "`; its stripped form
`"{}"` parses as the empty JSON object and the request reaches validation. -/
theorem identify_strips_before_parsing_witness :
    identify_movie ⟨"p"⟩ (fun _ _ => .ok ⟨[⟨⟨"  \x7b\x7d  "⟩⟩]⟩)
        (fun s => if s = "\x7b\x7d" then some (.obj []) else none) =
      some (validationStage []) :=
  (identify_strips_before_parsing ⟨"p"⟩ (fun _ _ => .ok ⟨[⟨⟨"  \x7b\x7d  "⟩⟩]⟩)
    (fun s => if s = "\x7b\x7d" then some (.obj []) else none)
    ⟨[⟨⟨"  \x7b\x7d  "⟩⟩]⟩ ⟨⟨"  \x7b\x7d  "⟩⟩ [] "  " "  " "\x7b\x7d" []
    rfl rfl rfl (by decide) rfl).1

/-- C10: a completion whose stripped text is valid JSON but not a JSON object
fails at the validation stage (the `IdentifyResponse(**result)` call, whose
`TypeError` is caught by the same handler as validation errors), not at the
parse stage: the error is the schema branch, never the malformed branch. -/
theorem identify_nonobject_is_schema_error (req : IdentifyRequest)
    (callLLM : String → Nat → Except String Completion)
    (loads : String → Option Json)
    (comp : Completion) (choice : Choice) (rest : List Choice) (j : Json)
    (hcall : callLLM (build_llm_prompt req.User_query) 0 = .ok comp)
    (hch : comp.choices = choice :: rest)
    (hparse : loads (pyStrip choice.message.content) = some j)
    (hnotobj : ∀ fields, j ≠ .obj fields) :
    ∃ e : ApiError, identify_movie req callLLM loads = some (.error e) ∧
      e.kind = .schema ∧ e.statusCode = 500 ∧ e.kind ≠ .malformed := by
  refine ⟨⟨500, .schema,
    schemaDetailPre ++ ("argument after ** must be a mapping, not " ++ jsonTypeName j)⟩,
    ?_, rfl, rfl, by simp⟩
  cases j with
  | obj fields => exact absurd rfl (hnotobj fields)
  | null => simp [identify_movie, hcall, hch, hparse]
  | bool b => simp [identify_movie, hcall, hch, hparse]
  | num q => simp [identify_movie, hcall, hch, hparse]
  | str s => simp [identify_movie, hcall, hch, hparse]
  | arr elems => simp [identify_movie, hcall, hch, hparse]

/-- Witness for C10: the completion text `"[]"` parses as a JSON array and is
rejected at the validation stage. -/
theorem identify_nonobject_is_schema_error_witness :
    ∃ e : ApiError,
      identify_movie ⟨"p"⟩ (fun _ _ => .ok ⟨[⟨⟨"[]"⟩⟩]⟩) (fun _ => some (.arr [])) =
        some (.error e) ∧
      e.kind = .schema ∧ e.statusCode = 500 ∧ e.kind ≠ .malformed :=
  identify_nonobject_is_schema_error ⟨"p"⟩ (fun _ _ => .ok ⟨[⟨⟨"[]"⟩⟩]⟩)
    (fun _ => some (.arr [])) ⟨[⟨⟨"[]"⟩⟩]⟩ ⟨⟨"[]"⟩⟩ [] (.arr [])
    rfl rfl rfl (fun _ h => by cases h)

/-- C1: for a completion whose stripped text parses as a JSON object with
`movie_name`, `release_date`, `rationale` as strings and `confidence` as a
number, the handler returns exactly those four values unchanged — no clamping
of confidence (the number is arbitrary, in `[0,1]` or not), no date
normalization, no other field-level post-processing. -/
theorem identify_passthrough_shape_valid (req : IdentifyRequest)
    (callLLM : String → Nat → Except String Completion)
    (loads : String → Option Json)
    (comp : Completion) (choice : Choice) (rest : List Choice)
    (fields : List (String × Json)) (m d r : String) (q : ℚ)
    (hcall : callLLM (build_llm_prompt req.User_query) 0 = .ok comp)
    (hch : comp.choices = choice :: rest)
    (hparse : loads (pyStrip choice.message.content) = some (.obj fields))
    (hm : lookupField fields "movie_name" = some (.str m))
    (hd : lookupField fields "release_date" = some (.str d))
    (hr : lookupField fields "rationale" = some (.str r))
    (hq : lookupField fields "confidence" = some (.num q)) :
    identify_movie req callLLM loads = some (.ok ⟨m, d, r, .finite q⟩) := by
  simp [identify_movie, hcall, hch, hparse, validateResponse, hm, hd, hr, hq,
    validateStrField, validateFloatField]

/-- Witness for C1: the spec's Inception example, confidence 87/100. -/
theorem identify_passthrough_shape_valid_witness :
    identify_movie ⟨"dream heist plot"⟩
        (fun _ _ => .ok ⟨[⟨⟨"x"⟩⟩]⟩)
        (fun _ => some (.obj [("movie_name", .str "Inception"),
                              ("release_date", .str "2010-07-16"),
                              ("rationale", .str "dream heist"),
                              ("confidence", .num (87 / 100))])) =
      some (.ok ⟨"Inception", "2010-07-16", "dream heist", .finite (87 / 100)⟩) :=
  identify_passthrough_shape_valid ⟨"dream heist plot"⟩ _ _ ⟨[⟨⟨"x"⟩⟩]⟩ ⟨⟨"x"⟩⟩ []
    [("movie_name", .str "Inception"), ("release_date", .str "2010-07-16"),
     ("rationale", .str "dream heist"), ("confidence", .num (87 / 100))]
    "Inception" "2010-07-16" "dream heist" (87 / 100)
    rfl rfl rfl rfl rfl rfl rfl

/-- C9: a parsed object carrying the four required fields with correct types
plus any additional keys validates successfully, and the handler returns only
the four required fields, silently discarding the extras. -/
theorem identify_ignores_extra_keys (req : IdentifyRequest)
    (callLLM : String → Nat → Except String Completion)
    (loads : String → Option Json)
    (comp : Completion) (choice : Choice) (rest : List Choice)
    (fields : List (String × Json)) (m d r : String) (q : ℚ)
    (extraKey : String) (extraVal : Json)
    (hcall : callLLM (build_llm_prompt req.User_query) 0 = .ok comp)
    (hch : comp.choices = choice :: rest)
    (hparse : loads (pyStrip choice.message.content) = some (.obj fields))
    (_hextra : (extraKey, extraVal) ∈ fields)
    (_hnotreq : extraKey ≠ "movie_name" ∧ extraKey ≠ "release_date" ∧
                extraKey ≠ "rationale" ∧ extraKey ≠ "confidence")
    (hm : lookupField fields "movie_name" = some (.str m))
    (hd : lookupField fields "release_date" = some (.str d))
    (hr : lookupField fields "rationale" = some (.str r))
    (hq : lookupField fields "confidence" = some (.num q)) :
    identify_movie req callLLM loads = some (.ok ⟨m, d, r, .finite q⟩) := by
  simp [identify_movie, hcall, hch, hparse, validateResponse, hm, hd, hr, hq,
    validateStrField, validateFloatField]

/-- Witness for C9: an object with an extra `"genre"` key between the required
fields validates and the extra key is dropped from the response. -/
theorem identify_ignores_extra_keys_witness :
    identify_movie ⟨"p"⟩
        (fun _ _ => .ok ⟨[⟨⟨"x"⟩⟩]⟩)
        (fun _ => some (.obj [("movie_name", .str "Inception"),
                              ("genre", .str "sci-fi"),
                              ("release_date", .str "2010-07-16"),
                              ("rationale", .str "dream heist"),
                              ("confidence", .num (87 / 100))])) =
      some (.ok ⟨"Inception", "2010-07-16", "dream heist", .finite (87 / 100)⟩) :=
  identify_ignores_extra_keys ⟨"p"⟩ _ _ ⟨[⟨⟨"x"⟩⟩]⟩ ⟨⟨"x"⟩⟩ []
    [("movie_name", .str "Inception"), ("genre", .str "sci-fi"),
     ("release_date", .str "2010-07-16"), ("rationale", .str "dream heist"),
     ("confidence", .num (87 / 100))]
    "Inception" "2010-07-16" "dream heist" (87 / 100) "genre" (.str "sci-fi")
    rfl rfl rfl (by simp) (by refine ⟨?_, ?_, ?_, ?_⟩ <;> decide)
    rfl rfl rfl rfl

/-- A value pydantic rejects for a required `str` field: the key is missing,
or the value is any JSON type other than a string. -/
def strFieldRejected : Option Json → Prop
  | none => True
  | some (.str _) => False
  | some _ => True

/-- A value pydantic rejects for the required `float` field: the key is
missing, or the value is neither a JSON number nor a string the lax-mode
coercion accepts. For strings the predicate additionally requires the
`asciiFloatInput` guard, so that a claimed rejection is sound for both
pydantic major versions (strings relying on CPython's Unicode-to-ASCII
digit/space mapping are left out rather than mismodeled). -/
def floatFieldRejected : Option Json → Prop
  | none => True
  | some (.num _) => False
  | some (.str s) => parsePyFloat s = none ∧ asciiFloatInput s = true
  | some _ => True

theorem validateStrField_rejects (name : String) {v : Option Json}
    (hv : strFieldRejected v) : ∃ m, validateStrField name v = .error m := by
  cases v with
  | none => exact ⟨_, rfl⟩
  | some j =>
      cases j with
      | str s => simp [strFieldRejected] at hv
      | null => exact ⟨_, rfl⟩
      | bool b => exact ⟨_, rfl⟩
      | num q => exact ⟨_, rfl⟩
      | arr elems => exact ⟨_, rfl⟩
      | obj fields => exact ⟨_, rfl⟩

theorem validateFloatField_rejects (name : String) {v : Option Json}
    (hv : floatFieldRejected v) : ∃ m, validateFloatField name v = .error m := by
  cases v with
  | none => exact ⟨_, rfl⟩
  | some j =>
      cases j with
      | num q => simp [floatFieldRejected] at hv
      | str s =>
          have hp : parsePyFloat s = none := hv.1
          exact ⟨name ++ ": Input should be a valid number, unable to parse string as a number",
            by simp [validateFloatField, hp]⟩
      | null => exact ⟨_, rfl⟩
      | bool b => exact ⟨_, rfl⟩
      | arr elems => exact ⟨_, rfl⟩
      | obj fields => exact ⟨_, rfl⟩

theorem validateStrField_error_pre {name m : String} {v : Option Json}
    (h : validateStrField name v = .error m) : ∃ suf, m = name ++ suf := by
  cases v with
  | none =>
      simp [validateStrField] at h
      exact ⟨_, h.symm⟩
  | some j =>
      cases j <;> simp [validateStrField] at h <;> exact ⟨_, h.symm⟩

theorem validateFloatField_error_pre {name m : String} {v : Option Json}
    (h : validateFloatField name v = .error m) : ∃ suf, m = name ++ suf := by
  cases v with
  | none =>
      simp [validateFloatField] at h
      exact ⟨_, h.symm⟩
  | some j =>
      cases j with
      | num q => simp [validateFloatField] at h
      | str s =>
          rcases hp : parsePyFloat s with _ | q
          · simp [validateFloatField, hp] at h
            exact ⟨_, h.symm⟩
          · simp [validateFloatField, hp] at h
      | null => simp [validateFloatField] at h; exact ⟨_, h.symm⟩
      | bool b => simp [validateFloatField] at h; exact ⟨_, h.symm⟩
      | arr elems => simp [validateFloatField] at h; exact ⟨_, h.symm⟩
      | obj fields => simp [validateFloatField] at h; exact ⟨_, h.symm⟩

theorem joinMsgs_head_ne (m : String) (ms : List String) (h : m ≠ "") :
    joinMsgs (m :: ms) ≠ "" := by
  cases ms with
  | nil => exact h
  | cons m₂ ms₂ =>
      show m ++ "; " ++ joinMsgs (m₂ :: ms₂) ≠ ""
      exact append_ne_empty_of_left _ (append_ne_empty_of_left _ h)

theorem validateResponse_rejects (fields : List (String × Json))
    (hbad : strFieldRejected (lookupField fields "movie_name") ∨
            strFieldRejected (lookupField fields "release_date") ∨
            strFieldRejected (lookupField fields "rationale") ∨
            floatFieldRejected (lookupField fields "confidence")) :
    ∃ msg, validateResponse fields = .error msg ∧ msg ≠ "" := by
  have herr :
      (∃ m, validateStrField "movie_name" (lookupField fields "movie_name") = .error m) ∨
      (∃ m, validateStrField "release_date" (lookupField fields "release_date") = .error m) ∨
      (∃ m, validateStrField "rationale" (lookupField fields "rationale") = .error m) ∨
      (∃ m, validateFloatField "confidence" (lookupField fields "confidence") = .error m) := by
    rcases hbad with h | h | h | h
    · exact Or.inl (validateStrField_rejects _ h)
    · exact Or.inr (Or.inl (validateStrField_rejects _ h))
    · exact Or.inr (Or.inr (Or.inl (validateStrField_rejects _ h)))
    · exact Or.inr (Or.inr (Or.inr (validateFloatField_rejects _ h)))
  rcases hm : validateStrField "movie_name" (lookupField fields "movie_name") with em | vm <;>
  rcases hd : validateStrField "release_date" (lookupField fields "release_date") with ed | vd <;>
  rcases hr : validateStrField "rationale" (lookupField fields "rationale") with er | vr <;>
  rcases hc : validateFloatField "confidence" (lookupField fields "confidence") with ec | vc <;>
  simp only [validateResponse, hm, hd, hr, hc, errOf, List.append_nil, List.nil_append,
    List.cons_append, List.singleton_append] <;>
  first
    | (refine ⟨_, rfl, joinMsgs_head_ne _ _ ?_⟩
       first
         | (obtain ⟨suf, hsuf⟩ := validateStrField_error_pre hm
            rw [hsuf]; exact append_ne_empty_of_left _ (by decide))
         | (obtain ⟨suf, hsuf⟩ := validateStrField_error_pre hd
            rw [hsuf]; exact append_ne_empty_of_left _ (by decide))
         | (obtain ⟨suf, hsuf⟩ := validateStrField_error_pre hr
            rw [hsuf]; exact append_ne_empty_of_left _ (by decide))
         | (obtain ⟨suf, hsuf⟩ := validateFloatField_error_pre hc
            rw [hsuf]; exact append_ne_empty_of_left _ (by decide)))
    | (rcases herr with ⟨m₀, hx⟩ | ⟨m₀, hx⟩ | ⟨m₀, hx⟩ | ⟨m₀, hx⟩ <;>
       first
         | (rw [hm] at hx; simp at hx)
         | (rw [hd] at hx; simp at hx)
         | (rw [hr] at hx; simp at hx)
         | (rw [hc] at hx; simp at hx))

/-- C3 (amended): for a parsed JSON object, the absence of any of the four
required fields is always a hard failure, and so is a type mismatch except
for the one coercion pydantic's default (non-strict) mode performs: a string
value for `confidence` that Python float-string parsing accepts — a decimal
literal, optionally whitespace-padded and with PEP 515 underscores, or a
signed `inf`/`infinity`/`nan` form, case-insensitive — is coerced rather than
rejected. Every rejection is the SchemaValidationError branch — HTTP 500 with
the nonempty underlying validation message in `detail` — never a partial
result. (The `asciiFloatInput` guard keeps strings whose handling depends on
CPython's Unicode-to-ASCII preprocessing outside the rejection hypothesis.) -/
theorem identify_schema_error_on_missing_or_mistyped (req : IdentifyRequest)
    (callLLM : String → Nat → Except String Completion)
    (loads : String → Option Json)
    (comp : Completion) (choice : Choice) (rest : List Choice)
    (fields : List (String × Json))
    (hcall : callLLM (build_llm_prompt req.User_query) 0 = .ok comp)
    (hch : comp.choices = choice :: rest)
    (hparse : loads (pyStrip choice.message.content) = some (.obj fields))
    (hbad : strFieldRejected (lookupField fields "movie_name") ∨
            strFieldRejected (lookupField fields "release_date") ∨
            strFieldRejected (lookupField fields "rationale") ∨
            floatFieldRejected (lookupField fields "confidence")) :
    ∃ e : ApiError, identify_movie req callLLM loads = some (.error e) ∧
      e.kind = .schema ∧ e.statusCode = 500 ∧
      ∃ msg, msg ≠ "" ∧ e.detail = schemaDetailPre ++ msg := by
  obtain ⟨msg, hv, hne⟩ := validateResponse_rejects fields hbad
  refine ⟨⟨500, .schema, schemaDetailPre ++ msg⟩, ?_, rfl, rfl, msg, hne, rfl⟩
  simp [identify_movie, hcall, hch, hparse, hv]

/-- Witness for the amended C3: the spec's example of an object missing
`confidence` is rejected at the validation stage. -/
theorem identify_schema_error_on_missing_or_mistyped_witness :
    ∃ e : ApiError,
      identify_movie ⟨"p"⟩ (fun _ _ => .ok ⟨[⟨⟨"x"⟩⟩]⟩)
        (fun _ => some (.obj [("movie_name", .str "Inception"),
                              ("release_date", .str "2010-07-16"),
                              ("rationale", .str "dream heist")])) =
        some (.error e) ∧
      e.kind = .schema ∧ e.statusCode = 500 ∧
      ∃ msg, msg ≠ "" ∧ e.detail = schemaDetailPre ++ msg :=
  identify_schema_error_on_missing_or_mistyped ⟨"p"⟩ _ _ ⟨[⟨⟨"x"⟩⟩]⟩ ⟨⟨"x"⟩⟩ []
    [("movie_name", .str "Inception"), ("release_date", .str "2010-07-16"),
     ("rationale", .str "dream heist")]
    rfl rfl rfl (Or.inr (Or.inr (Or.inr trivial)))

/-- C3 as stated is false on the code: with `confidence` given as the JSON
string `"0.87"` — a type other than the stated number — validation does not
fail; pydantic's default lax mode coerces the numeric string and the handler
returns a success response with confidence 87/100. -/
theorem identify_mistyped_confidence_counterexample :
    ∃ resp : IdentifyResponse,
      identify_movie ⟨"p"⟩ (fun _ _ => .ok ⟨[⟨⟨"x"⟩⟩]⟩)
        (fun _ => some (.obj [("movie_name", .str "Inception"),
                              ("release_date", .str "2010-07-16"),
                              ("rationale", .str "dream heist"),
                              ("confidence", .str "0.87")])) =
        some (.ok resp) ∧ resp.confidence = .finite (87 / 100) := by
  refine ⟨_, rfl, ?_⟩
  show PyFloat.finite (((↑(0 : ℕ) : ℚ) + (↑(87 : ℕ) : ℚ) / (10 : ℚ) ^ (2 : ℕ)) * 1) =
    PyFloat.finite (87 / 100)
  exact congrArg PyFloat.finite (by norm_num)

/-- C6: every failure the handler produces — upstream error, JSON parse
failure, or schema validation failure — is an HTTP 500 whose body carries a
(nonempty) `detail` string; the handler itself raises no other failure
status code. -/
theorem identify_failures_are_500_with_detail (req : IdentifyRequest)
    (callLLM : String → Nat → Except String Completion)
    (loads : String → Option Json) (e : ApiError)
    (h : identify_movie req callLLM loads = some (.error e)) :
    e.statusCode = 500 ∧ e.detail ≠ "" := by
  simp only [identify_movie] at h
  rcases hc : callLLM (build_llm_prompt req.User_query) 0 with msg | comp <;>
    simp only [hc] at h
  · simp only [Option.some.injEq, Except.error.injEq] at h
    rw [← h]
    exact ⟨rfl, append_ne_empty_of_left _ (by decide)⟩
  · rcases hch : comp.choices with _ | ⟨choice, rest⟩ <;> simp only [hch] at h
    · simp at h
    · rcases hl : loads (pyStrip choice.message.content) with _ | j <;> simp only [hl] at h
      · simp only [Option.some.injEq, Except.error.injEq] at h
        rw [← h]
        exact ⟨rfl, append_ne_empty_of_left _ (by decide)⟩
      · cases j with
        | obj fields =>
            rcases hv : validateResponse fields with msg | resp <;> simp only [hv] at h
            · simp only [Option.some.injEq, Except.error.injEq] at h
              rw [← h]
              exact ⟨rfl, append_ne_empty_of_left _ (by decide)⟩
            · simp at h
        | null =>
            simp only [Option.some.injEq, Except.error.injEq] at h
            rw [← h]
            exact ⟨rfl, append_ne_empty_of_left _ (by decide)⟩
        | bool b =>
            simp only [Option.some.injEq, Except.error.injEq] at h
            rw [← h]
            exact ⟨rfl, append_ne_empty_of_left _ (by decide)⟩
        | num q =>
            simp only [Option.some.injEq, Except.error.injEq] at h
            rw [← h]
            exact ⟨rfl, append_ne_empty_of_left _ (by decide)⟩
        | str s =>
            simp only [Option.some.injEq, Except.error.injEq] at h
            rw [← h]
            exact ⟨rfl, append_ne_empty_of_left _ (by decide)⟩
        | arr elems =>
            simp only [Option.some.injEq, Except.error.injEq] at h
            rw [← h]
            exact ⟨rfl, append_ne_empty_of_left _ (by decide)⟩

/-- Witness for C6 at a concrete failing input (an upstream error). -/
theorem identify_failures_are_500_with_detail_witness :
    (⟨500, .upstream, upstreamDetailPre ++ "boom"⟩ : ApiError).statusCode = 500 ∧
    (⟨500, .upstream, upstreamDetailPre ++ "boom"⟩ : ApiError).detail ≠ "" :=
  identify_failures_are_500_with_detail ⟨"p"⟩ (fun _ _ => .error "boom") (fun _ => none)
    ⟨500, .upstream, upstreamDetailPre ++ "boom"⟩ rfl

end PMN
